import Mathlib

/-!
# Verification of the vore VM supervisor against its specification

Shallow embedding of the relevant parts of the `vore` repository
(`vore-core`, `vored`) in Lean 4, together with theorems settling the
frozen claims C1-C10.

Conventions used throughout:

* Rust `u8`/`u32`/`u64` values are modelled as `Nat`; where a parser
  enforces a machine-integer bound the bound is made explicit.
* Rust strings are modelled as Lean `String`/`List Char`.  Rust's
  Unicode-aware `to_lowercase`/`is_alphabetic` are modelled with the
  ASCII `Char.toLower`/`Char.isAlpha`; every input appearing in the
  claims is ASCII.
* Fallible Rust code returning `Result<T, anyhow::Error>` is modelled as
  `Except String T`.  Error messages are transcribed from the source with
  ASCII apostrophes elided (e.g. "can't" becomes "cannot"); no claim
  depends on the elided characters.
* Filesystem reads are passed in as explicit arguments (e.g. the result
  of `readlink`), filesystem writes are returned as explicit lists of
  write operations.
-/

/-! ## Generic string helpers (structural, so that they reduce in the kernel) -/

/-- Rust `str::split(sep)` on a list of characters: splitting never yields an
empty list, and separators at the ends yield empty segments, exactly as in
Rust (`"".split('x') == [""]`). -/
def splitOnChar (sep : Char) : List Char → List (List Char)
  | [] => [[]]
  | c :: cs =>
    let r := splitOnChar sep cs
    if c = sep then [] :: r
    else
      match r with
      | g :: gs => (c :: g) :: gs
      | [] => [[c]]

/-- Lower-case hexadecimal digit for a value `< 16`, as produced by Rust's
`{:x}` formatting. -/
def hexChar (n : Nat) : Char :=
  if n < 10 then Char.ofNat (48 + n) else Char.ofNat (87 + n)

/-- Fuel-driven accumulation of the hex digits of `n` (most significant
first).  Fuel `n + 1` is always sufficient since the argument shrinks by a
factor of 16 every step. -/
def hexCharsAux : Nat → Nat → List Char
  | 0, _ => []
  | fuel + 1, n => if n = 0 then [] else hexCharsAux fuel (n / 16) ++ [hexChar (n % 16)]

/-- The hex digits of `n`, `"0"` for zero — Rust `format!("{:x}", n)`. -/
def hexChars (n : Nat) : List Char :=
  if n = 0 then ['0'] else hexCharsAux (n + 1) n

/-- Rust `format!("{:0wx}", n)`: hex digits of `n` left-padded with zeros to
at least `width` characters. -/
def hexPad (width n : Nat) : String :=
  String.mk (List.replicate (width - (hexChars n).length) '0' ++ hexChars n)

/-- Value of one hexadecimal digit, accepting both cases like Rust
`from_str_radix(_, 16)`. -/
def hexDigitVal? (c : Char) : Option Nat :=
  if '0' ≤ c ∧ c ≤ '9' then some (c.toNat - 48)
  else if 'a' ≤ c ∧ c ≤ 'f' then some (c.toNat - 87)
  else if 'A' ≤ c ∧ c ≤ 'F' then some (c.toNat - 55)
  else none

/-- Accumulate hexadecimal digits; `none` on the first non-digit. -/
def parseHexAux : List Char → Nat → Option Nat
  | [], acc => some acc
  | c :: cs, acc =>
    match hexDigitVal? c with
    | some d => parseHexAux cs (acc * 16 + d)
    | none => none

/-- Rust `uN::from_str_radix(s, 16)`: an optional leading `+`, then at least
one hex digit; values above `bound` (the type maximum) are rejected.  Rust
detects overflow during accumulation, which accepts and rejects exactly the
same strings as this final bound check. -/
def from_str_radix_16 (bound : Nat) (cs : List Char) : Except String Nat :=
  let cs2 := match cs with
    | '+' :: rest => rest
    | _ => cs
  if cs2.isEmpty then Except.error "cannot parse integer from empty string"
  else
    match parseHexAux cs2 0 with
    | some v =>
      if v ≤ bound then Except.ok v
      else Except.error "number too large to fit in target type"
    | none => Except.error "invalid digit found in string"

/-- Rust `u64::from_str` (decimal): an optional leading `+`, then at least
one decimal digit.  The `u64` overflow bound is irrelevant to every claim
and is not modelled. -/
def u64_from_str (cs : List Char) : Option Nat :=
  let cs2 := match cs with
    | '+' :: rest => rest
    | _ => cs
  if cs2.isEmpty then none
  else if cs2.all Char.isDigit then
    some (cs2.foldl (fun a c => a * 10 + (c.toNat - 48)) 0)
  else none

/-! ## RPC request/response tags (src/vore-core/src/rpc/calls.rs, src/vored/src/daemon.rs)

`define_requests!` generates `AllRequests` with `#[serde(tag = "query",
rename_all = "snake_case")]` and `AllResponses` with `#[serde(tag =
"answer", rename_all = "snake_case")]`, one variant per request name, and a
`Request` impl statically pairing each `XRequest` with `XResponse`. -/

/-- The variants of `AllRequests` (payloads are irrelevant to C1). -/
inductive RequestKind where
  | Info
  | List
  | Load
  | Prepare
  | Start
  | Stop
  | Unload
  | Kill
  | DiskPresets
deriving DecidableEq

/-- The variants of `AllResponses`. -/
inductive ResponseKind where
  | Info
  | List
  | Load
  | Prepare
  | Start
  | Stop
  | Unload
  | Kill
  | DiskPresets
deriving DecidableEq

/-- serde's `rename_all = "snake_case"` on a CamelCase identifier: each
upper-case letter starts a new `_`-separated word and is lowered. -/
def toSnakeCase (s : String) : String :=
  String.mk (s.data.foldl
    (fun acc c =>
      if c.isUpper then acc ++ (if acc.isEmpty then [] else ['_']) ++ [c.toLower]
      else acc ++ [c])
    [])

/-- The Rust variant name of a request. -/
def RequestKind.variantName : RequestKind → String
  | .Info => "Info"
  | .List => "List"
  | .Load => "Load"
  | .Prepare => "Prepare"
  | .Start => "Start"
  | .Stop => "Stop"
  | .Unload => "Unload"
  | .Kill => "Kill"
  | .DiskPresets => "DiskPresets"

/-- The Rust variant name of a response. -/
def ResponseKind.variantName : ResponseKind → String
  | .Info => "Info"
  | .List => "List"
  | .Load => "Load"
  | .Prepare => "Prepare"
  | .Start => "Start"
  | .Stop => "Stop"
  | .Unload => "Unload"
  | .Kill => "Kill"
  | .DiskPresets => "DiskPresets"

/-- The `query` discriminator tag written on the wire for a request. -/
def requestQueryTag (k : RequestKind) : String := toSnakeCase k.variantName

/-- The `answer` discriminator tag written on the wire for a response. -/
def responseAnswerTag (k : ResponseKind) : String := toSnakeCase k.variantName

/-- The statically declared pairing `impl Request for XRequest { type
Response = XResponse }` generated by `define_requests!`. -/
def pairedResponse : RequestKind → ResponseKind
  | .Info => .Info
  | .List => .List
  | .Load => .Load
  | .Prepare => .Prepare
  | .Start => .Start
  | .Stop => .Stop
  | .Unload => .Unload
  | .Kill => .Kill
  | .DiskPresets => .DiskPresets

/-- Which `AllResponses` variant `Daemon::handle_command`
(src/vored/src/daemon.rs, lines 332-419) constructs on the success path of
each request.  `Stop` and `Kill` both build `rpc::StartResponse
{}.into_enum()`; `Unload` unconditionally bails and therefore has no
success response. -/
def handle_command_response : RequestKind → Option ResponseKind
  | .Info => some .Info
  | .List => some .List
  | .Load => some .Load
  | .Prepare => some .Prepare
  | .Start => some .Start
  | .Stop => some .Start
  | .Unload => none
  | .Kill => some .Start
  | .DiskPresets => some .DiskPresets

/-! ## Command queue and RPC input (src/vored/src/daemon.rs) -/

/-- `Daemon::handle_command_queue` (daemon.rs 285-298): `while let
Some((id, command)) = self.command_queue.pop()` — each iteration removes
and executes the LAST element of the `Vec`.  `drainOrder q` is the order
in which the elements of the queue `q` are executed and answered. -/
def drainOrder {α : Type} : List α → List α
  | [] => []
  | x :: xs => (x :: xs).getLast (by simp) :: drainOrder (x :: xs).dropLast
termination_by q => q.length
decreasing_by simp

/-- `RpcConnection::handle_input` (daemon.rs 52-106), buffer splitting: when
the connection is still open, `buffer.split_off(idx)` keeps everything up to
and including the LAST newline for parsing and retains the partial tail; when
no newline is present `unwrap_or(buffer.len())` sends the whole buffer to
parsing.  On a closed connection the whole buffer is parsed.  Returns
(parsed part, retained tail). -/
def split_buffer (still_open : Bool) (buffer : List Char) : List Char × List Char :=
  if still_open then
    let tailLen := (buffer.reverse.takeWhile (fun c => c ≠ '\n')).length
    if tailLen = buffer.length then (buffer, [])
    else (buffer.take (buffer.length - tailLen), buffer.drop (buffer.length - tailLen))
  else (buffer, [])

/-- `RpcConnection::handle_input`, command extraction: the parsed part is
split on newlines, empty lines are skipped, and each remaining line is
parsed and pushed as `(own_id, cmd)` in buffer order.  Parsing of a single
line (`CommandCenter::read_command`) is abstracted: every non-empty line
stands for one successfully parsed command.  Returns (commands in parse
order, retained tail). -/
def handle_input_commands (own_id : Nat) (still_open : Bool) (buffer : List Char) :
    List (Nat × List Char) × List Char :=
  let (parsed, retained) := split_buffer still_open buffer
  (((splitOnChar '\n' parsed).filter (fun part => part ≠ [])).map (fun cmd => (own_id, cmd)),
    retained)

/-! ## Signal handling (src/vored/src/daemon.rs) -/

def SIGHUP : Nat := 1
def SIGINT : Nat := 2
def SIGTERM : Nat := 15

/-- `Daemon::new` (daemon.rs 138): `Signals::new(&[SIGINT, SIGHUP])` — the
set of signals registered with the signal iterator.  Only registered
signals are caught and later appear in `signals.pending()`; any other
signal keeps its default disposition. -/
def registered_signals : List Nat := [SIGINT, SIGHUP]

/-- `Daemon::handle_exit_code` (daemon.rs 421-434): iterate over the pending
signals; `SIGINT | SIGTERM` returns `Ok(false)` (stop the main loop), any
other signal is only logged.  Returns `true` when the loop should keep
running. -/
def handle_exit_code : List Nat → Bool
  | [] => true
  | s :: rest => if s = SIGINT ∨ s = SIGTERM then false else handle_exit_code rest

/-- Whether delivery of signal `s` to the running daemon triggers the
graceful-shutdown path of `Daemon::run` (daemon.rs 248-283): the signal
must be registered with the signal iterator (otherwise its default
disposition applies and the loop never sees it), and `handle_exit_code`
must return `false` for it, which breaks the loop and reaches the
`remove_file(socket_path)` cleanup. -/
def signal_causes_graceful_shutdown (s : Nat) : Bool :=
  registered_signals.contains s && !handle_exit_code [s]

/-! ## Size parsing (src/vore-core/src/instance_config.rs, parse_size, 217-253) -/

/-- Shared tail of `parse_size`: reject an empty remainder, then parse it
with `u64::from_str` (decimal) and scale by the unit modifier. -/
def parse_size_finish (cs : List Char) (modifier : Nat) : Except String Nat :=
  if cs.length = 0 then Except.error "is not a valid size"
  else
    match u64_from_str cs with
    | some n => Except.ok (n * modifier)
    | none => Except.error "is not a valid size"

/-- `parse_size` (instance_config.rs 217-253): lower-case the input, remove
spaces, strip one trailing `b`; if the last remaining character is
alphabetic it selects the modifier (`k` → error, `m` → 1, `g` → 1024,
`t` → 1024·1024, anything else → error) and is dropped; the rest must be a
non-empty decimal integer, multiplied by the modifier. -/
def parse_size (orig_input : String) : Except String Nat :=
  let input0 := (orig_input.data.map Char.toLower).filter (fun c => c ≠ ' ')
  let input1 := if input0.getLast? = some 'b' then input0.dropLast else input0
  match input1.getLast? with
  | some c =>
    if c.isAlpha then
      match c with
      | 'k' => Except.error "size can only be specified in megabytes or larger"
      | 'm' => parse_size_finish input1.dropLast 1
      | 'g' => parse_size_finish input1.dropLast 1024
      | 't' => parse_size_finish input1.dropLast (1024 * 1024)
      | _ => Except.error "is not a valid size"
    else parse_size_finish input1 1
  | none => parse_size_finish input1 1

/-! ## CPU topology (src/vore-core/src/instance_config.rs, CpuConfig, 126-215) -/

/-- `CpuConfig` — all five fields are `u64` in the source. -/
structure CpuConfig where
  amount : Nat
  cores : Nat
  threads : Nat
  dies : Nat
  sockets : Nat
deriving DecidableEq

/-- `impl Default for CpuConfig` (instance_config.rs 135-145). -/
def CpuConfig.default : CpuConfig :=
  { amount := 2, cores := 1, threads := 2, dies := 1, sockets := 1 }

/-- The `[cpu]` table as far as `CpuConfig::apply_table` reads it: each key
optionally present with a non-negative integer value (negative and
non-integer values error out earlier in `get_positive_number_from_table`
and are not modelled; since every value passes through `i64` and the
non-negative filter, each given value is below `2^63`). -/
structure CpuTable where
  amount : Option Nat
  cores : Option Nat
  threads : Option Nat
  dies : Option Nat
  sockets : Option Nat
deriving DecidableEq

/-- The first phase of `CpuConfig::apply_table`: overwrite each field of
`self` that is present in the table. -/
def CpuTable.mergeInto (t : CpuTable) (self : CpuConfig) : CpuConfig :=
  { amount := t.amount.getD self.amount
    cores := t.cores.getD self.cores
    threads := t.threads.getD self.threads
    dies := t.dies.getD self.dies
    sockets := t.sockets.getD self.sockets }

/-- Whether the table mentions any of the four topology sub-keys
(`table.keys().any(...)` in the source). -/
def CpuTable.subFieldsGiven (t : CpuTable) : Bool :=
  t.cores.isSome || t.sockets.isSome || t.dies.isSome || t.threads.isSome

/-- `CpuConfig::apply_table` (instance_config.rs 170-215): after merging the
table into `self`, (a) with no `amount` key the amount becomes the product
sockets·dies·cores·threads; (b) with `amount` and at least one sub-key the
amount must equal the product; (c) with `amount` alone an even amount is
split as cores = amount/2 (threads keeps its value, 2 by default) and an
odd amount as threads = 1, cores = amount.  The product is a chain of `u64`
multiplications, which wrap around in release builds; since `Nat.mod` is
multiplicative, reducing the full product modulo `2^64` models the
step-by-step wrapping exactly. -/
def CpuConfig.apply_table (self : CpuConfig) (t : CpuTable) : Except String CpuConfig :=
  let s := t.mergeInto self
  if t.amount.isNone then
    Except.ok { s with amount := s.sockets * s.dies * s.cores * s.threads % 2 ^ 64 }
  else if t.subFieldsGiven then
    let calc_amount := s.sockets * s.dies * s.cores * s.threads % 2 ^ 64
    if s.amount ≠ calc_amount then
      Except.error "Amount of cpus from sockets, dies, cores and threads differs from specified cpus"
    else Except.ok s
  else if s.amount % 2 = 0 then
    Except.ok { s with cores := s.amount / 2 }
  else
    Except.ok { s with threads := 1, cores := s.amount }

/-! ## Looking-glass buffer size (src/vore-core/src/instance_config.rs, 342-369) -/

/-- Mathematical helper (not itself a model of source code): the first
power `2^j` with `j ≥ i` that reaches `minimum`. -/
def leastPow2From (minimum : Nat) (i : Nat) : Nat :=
  if 2 ^ i < minimum then leastPow2From minimum (i + 1) else 2 ^ i
termination_by minimum - 2 ^ i
decreasing_by
  have h1 : 2 ^ i < 2 ^ (i + 1) := Nat.pow_lt_pow_succ (by norm_num)
  omega

/-- The `while buffer_size < minimum_needed` loop of
`calc_buffer_size_from_screen`: starting from exponent `i`, keep doubling
until `buffer_size = 2u64.pow(i)` reaches `minimum`.  The power is a `u64`
and wraps around (release semantics), so `buffer_size` is `2^i % 2^64`;
once `minimum` exceeds `2^63` every subsequent `buffer_size` is `0` and
the source loop never terminates, which the model reports as `none` once
the fuel is exhausted.  In the source the loop state is `(i, buffer_size =
2^i)` from the second iteration on; the first iteration (entered when
`1 < minimum` with `buffer_size = 1`, `i = 1`) sets `i = 2`,
`buffer_size = 4` and is unrolled in the caller below. -/
def buffer_size_loop_u64 : Nat → Nat → Nat → Option Nat
  | 0, _, _ => none
  | fuel + 1, minimum, i =>
    if 2 ^ i % 2 ^ 64 < minimum then buffer_size_loop_u64 fuel minimum (i + 1)
    else some (2 ^ i % 2 ^ 64)

/-- The three `u64` mutations of `minimum_needed` in
`LookingGlassConfig::calc_buffer_size_from_screen` (instance_config.rs
352-359): `width * height * ceil(bit_depth * 4 / 8)` (two wrapping
multiplications, modelled by one `% 2^64` since `Nat.mod` is
multiplicative), `*= 2`, `+= 2 MiB`, each wrapping.  The source computes
the ceiling through `f64`: `bit_depth * 4` wraps first as a `u64`, and for
wrapped values up to `2^53` (where the `u64 → f64` conversion is exact)
the `f64` ceiling equals the `Nat` ceiling `(x + 7) / 8` used here. -/
def wrapped_minimum (width height bit_depth : Nat) : Nat :=
  ((width * height * ((bit_depth * 4 % 2 ^ 64 + 7) / 8)) % 2 ^ 64 * 2 % 2 ^ 64
    + 2 * 1024 * 1024) % 2 ^ 64

/-- `LookingGlassConfig::calc_buffer_size_from_screen` (instance_config.rs
342-369) under `u64` (wrapping) arithmetic: the wrapped minimum, then the
power-of-two loop.  Fuel 64 is exact for the start exponent 2: a minimum
at most `2^63` is reached by exponent 63 (61 iterations), and a larger
minimum is never reached by any `2^i % 2^64`, so `none` means precisely
that the source loop does not terminate. -/
def calc_buffer_size_from_screen (width height bit_depth : Nat) : Option Nat :=
  let minimum_needed := wrapped_minimum width height bit_depth
  if 1 < minimum_needed then buffer_size_loop_u64 64 minimum_needed 2 else some 1

/-! ## PCI addresses (src/vore-core/src/instance_config.rs, 658-769) -/

/-- `PCIAddress` — `domain: u32, bus: u8, slot: u8, func: u8`. -/
structure PCIAddress where
  domain : Nat := 0
  bus : Nat := 0
  slot : Nat := 0
  func : Nat := 0
deriving DecidableEq

/-- The `bus:slot.func` part written by both `Display` and `Debug`
(`format!("{:02x}:{:02x}.{:x}", bus, slot, func)`). -/
def PCIAddress.busSlotFunc (a : PCIAddress) : String :=
  hexPad 2 a.bus ++ ":" ++ hexPad 2 a.slot ++ "." ++ hexPad 1 a.func

/-- `PCIAddress::to_string` (instance_config.rs 703-710):
`format!("{:04x}:{:02x}:{:02x}.{:x}", domain, bus, slot, func)`. -/
def PCIAddress.to_string (a : PCIAddress) : String :=
  hexPad 4 a.domain ++ ":" ++ a.busSlotFunc

/-- `impl Display for PCIAddress` in alternate (`{:#}`) mode
(instance_config.rs 727-738): the `{:04x}:` domain prefix is written only
when `f.alternate() && self.domain == 0`; then `bus:slot.func` follows. -/
def PCIAddress.displayAlt (a : PCIAddress) : String :=
  (if a.domain = 0 then hexPad 4 a.domain ++ ":" else "") ++ a.busSlotFunc

/-- The sysfs path `format!("/sys/bus/pci/devices/{:#}/driver", vfio.address)`
used by `VirtualMachine::prepare_vfio` (virtual_machine.rs 218). -/
def pci_driver_path (a : PCIAddress) : String :=
  "/sys/bus/pci/devices/" ++ a.displayAlt ++ "/driver"

/-- `impl FromStr for PCIAddress` (instance_config.rs 740-769): split the
string on `:` from the right; the first piece is split on `.` into slot
and function, the next two pieces are bus and domain; all parsed as hex
(`u8`/`u32`), missing pieces default to 0, extra pieces are ignored. -/
def PCIAddress.from_str (s : String) : Except String PCIAddress := do
  let rev := (splitOnChar ':' s.data).reverse
  let mut addr : PCIAddress := {}
  if let some slot_and_func := rev.get? 0 then
    let parts := splitOnChar '.' slot_and_func
    if let some slot := parts.get? 0 then
      addr := { addr with slot := (← from_str_radix_16 255 slot) }
    if let some func := parts.get? 1 then
      addr := { addr with func := (← from_str_radix_16 255 func) }
  if let some bus := rev.get? 1 then
    addr := { addr with bus := (← from_str_radix_16 255 bus) }
  if let some domain := rev.get? 2 then
    addr := { addr with domain := (← from_str_radix_16 4294967295 domain) }
  return addr

/-! ## VFIO preparation (src/vore-core/src/virtual_machine.rs, 79, 198-295) -/

/-- The three kinds of sysfs writes `prepare_vfio` may perform for a
device: `<addr>\n` to `.../driver/unbind`, `vfio-pci\n` to
`.../driver_override`, `<addr>\n` to `/sys/bus/pci/drivers_probe`. -/
inductive SysWrite where
  | unbind (address : String)
  | driver_override (address : String)
  | drivers_probe (address : String)
deriving DecidableEq

/-- `AUTO_UNBIND_BLACKLIST` (virtual_machine.rs 79). -/
def AUTO_UNBIND_BLACKLIST : List String := ["nvidia", "amdgpu"]

/-- Driver-name extraction in `prepare_vfio` (virtual_machine.rs 220-241):
`readlink` yielding a path gives `path.split("/").last()`; a `NotFound`
error (modelled as `none`) gives the empty string.  Other I/O errors
propagate in the source and are not modelled. -/
def driver_from_link : Option String → String
  | none => ""
  | some p => ((splitOnChar '/' p.data).getLast?.map String.mk).getD ""

/-- Per-device body of `VirtualMachine::prepare_vfio` (virtual_machine.rs
217-293), after the `modprobe vfio-pci` step.  `link` is the result of
`readlink(/sys/bus/pci/devices/<addr>/driver)`; `rebind_result_is_vfio`
is whether the re-resolved driver link ends in `vfio-pci` after the three
writes.  Returns the sysfs writes performed for this device together with
the device's result. -/
def prepare_vfio_device (execute_fixes force : Bool) (address : String)
    (link : Option String) (rebind_result_is_vfio : Bool) :
    List SysWrite × Except String Unit :=
  let driver := driver_from_link link
  let is_blacklisted := AUTO_UNBIND_BLACKLIST.contains driver && !force
  if driver ≠ "vfio-pci" ∧ (execute_fixes = false ∨ is_blacklisted = true) then
    if driver ≠ "" ∧ is_blacklisted = true then
      ([], Except.error ("PCI device " ++ address ++ " current driver is " ++ driver ++
        ", but to be used with VFIO needs to be set to vfio-pci, this driver (" ++ driver ++
        ") has been blacklisted from automatic rebinding because it cannot be cleanly unbound, please make sure this device is unbound before running vore"))
    else if driver ≠ "" then
      ([], Except.error ("PCI device " ++ address ++ " current driver is " ++ driver ++
        ", but to be used with VFIO needs to be set to vfio-pci"))
    else
      ([], Except.error ("PCI device at " ++ address ++
        " currently has no driver, but to be used with VFIO needs to be set to vfio-pci"))
  else if driver ≠ "vfio-pci" ∧ execute_fixes = true ∧ is_blacklisted = false then
    let writes := (if driver ≠ "" then [SysWrite.unbind address] else []) ++
      [SysWrite.driver_override address, SysWrite.drivers_probe address]
    if rebind_result_is_vfio then (writes, Except.ok ())
    else (writes, Except.error ("Tried to bind " ++ address ++ " to vfio-pci but failed to do so"))
  else ([], Except.ok ())

/-! ## VM state and prepare (src/vore-core/src/virtual_machine.rs, 25-33, 110-125) -/

/-- `VirtualMachineState`. -/
inductive VMState where
  | Loaded
  | Prepared
  | Stopped
  | Paused
  | Running
deriving DecidableEq

/-- Whether a phase result is a success. -/
def resultIsOk : Except String Unit → Bool
  | Except.ok _ => true
  | Except.error _ => false

/-- The error messages of the failed results, in order. -/
def collectErrors (rs : List (Except String Unit)) : List String :=
  rs.filterMap (fun r =>
    match r with
    | Except.error e => some e
    | Except.ok _ => none)

/-- `beau_collector::BeauCollector::bcollect` as used by
`VirtualMachine::prepare`: succeeds when no result failed, otherwise
collects every error message into one multi-error (modelled as the list of
messages rather than the crate's joined rendering). -/
def bcollect (rs : List (Except String Unit)) : Except (List String) Unit :=
  if (collectErrors rs).isEmpty then Except.ok ()
  else Except.error (collectErrors rs)

/-- `VirtualMachine::prepare` (virtual_machine.rs 110-125): extend one
result vector with the results of `prepare_disks`, `prepare_vfio`,
`prepare_shm` and `prepare_sockets` (each a vector of per-item results,
passed in here since they depend on the filesystem), `bcollect` them, and
only on success move a `Loaded` machine to `Prepared`.  Returns the new
state together with the collected result. -/
def VirtualMachine.prepare (state : VMState)
    (disk_results vfio_results shm_results socket_results : List (Except String Unit)) :
    VMState × Except (List String) Unit :=
  match bcollect (disk_results ++ vfio_results ++ shm_results ++ socket_results) with
  | Except.error errs => (state, Except.error errs)
  | Except.ok _ =>
    (if state = VMState.Loaded then VMState.Prepared else state, Except.ok ())

/-! ## Claim theorems -/

/-- **C1** (code bug exhibit).  The daemon answers a `Stop` request and a
`Kill` request with the `AllResponses::Start` variant, whose wire tag is
`"start"` — not `"stop"`/`"kill"` as the snake_case mirroring and the
statically declared `StopRequest → StopResponse` / `KillRequest →
KillResponse` pairing require. -/
theorem C1_stop_kill_answer_tag :
    (handle_command_response RequestKind.Stop).map responseAnswerTag = some "start" ∧
    (handle_command_response RequestKind.Kill).map responseAnswerTag = some "start" ∧
    requestQueryTag RequestKind.Stop = "stop" ∧
    requestQueryTag RequestKind.Kill = "kill" ∧
    handle_command_response RequestKind.Stop ≠ some (pairedResponse RequestKind.Stop) ∧
    handle_command_response RequestKind.Kill ≠ some (pairedResponse RequestKind.Kill) := by
  refine ⟨rfl, rfl, rfl, rfl, ?_, ?_⟩ <;> decide

/-- **C2** (counterexample).  Two requests `A` and `B` parsed in this order
from one connection's buffer enter the command queue as `[(7, A), (7, B)]`,
and the queue is drained by `Vec::pop`, so `B` is executed and answered
before `A` — the claimed parse-order execution fails. -/
theorem C2_counterexample :
    (handle_input_commands 7 true ("A\nB\n".data)).1 = [(7, ['A']), (7, ['B'])] ∧
    drainOrder (handle_input_commands 7 true ("A\nB\n".data)).1 = [(7, ['B']), (7, ['A'])] := by
  refine ⟨by decide, ?_⟩
  have h : (handle_input_commands 7 true ("A\nB\n".data)).1 = [(7, ['A']), (7, ['B'])] := by
    decide
  rw [h]
  simp [drainOrder]

/-- **C2** (amended).  `Daemon::handle_command_queue` executes and answers
the queued commands in exactly the reverse of the order in which they were
parsed and enqueued (the `Vec` is drained LIFO by `pop`), so of two
requests parsed from the same connection's buffer in one batch the later
one is handled first. -/
theorem C2_queue_drained_lifo {α : Type} (q : List α) : drainOrder q = q.reverse := by
  match q with
  | [] => simp [drainOrder]
  | x :: xs =>
    have ih := C2_queue_drained_lifo (x :: xs).dropLast
    simp only [drainOrder]
    rw [ih]
    conv_rhs => rw [← List.dropLast_append_getLast (l := x :: xs) (by simp)]
    rw [List.reverse_append]
    simp
termination_by q.length
decreasing_by simp

/-- **C3** (code bug exhibit).  `handle_exit_code` does treat a pending
SIGTERM as a shutdown request, but `Daemon::new` registers only SIGINT and
SIGHUP with the signal iterator, so a delivered SIGTERM never becomes
pending: it keeps its default disposition, the loop is never broken
gracefully and the socket file is not removed.  SIGINT shuts down
gracefully and SIGHUP is a no-op, as claimed. -/
theorem C3_sigterm_not_registered :
    signal_causes_graceful_shutdown SIGINT = true ∧
    signal_causes_graceful_shutdown SIGTERM = false ∧
    handle_exit_code [SIGTERM] = false ∧
    registered_signals.contains SIGTERM = false ∧
    handle_exit_code [SIGHUP] = true := by
  decide

/-- **C4** (counterexample).  A bare decimal integer with no unit is
accepted by `parse_size` (`"2"` parses to `2`), and a hexadecimal integer
is rejected (`u64::from_str` is decimal-only), contradicting the claim
that bytes-only inputs are rejected and hexadecimal integers accepted. -/
theorem C4_counterexample :
    parse_size "2" = Except.ok 2 ∧ parse_size "0x10" = Except.error "is not a valid size" := by
  exact ⟨rfl, rfl⟩

/-- **C4** (amended).  The size parser accepts a decimal integer followed
by an optional unit `m`, `g` or `t` (case-insensitive, each optionally
suffixed with `b`): `"2g"` and `"2gb"` both parse to `2048`, the kilobyte
unit is rejected with the dedicated error, a bare integer parses unscaled
(as megabytes), and hexadecimal input is rejected. -/
theorem C4_size_rules :
    parse_size "2g" = Except.ok 2048 ∧
    parse_size "2gb" = Except.ok 2048 ∧
    parse_size "2GB" = Except.ok 2048 ∧
    parse_size "2kb" = Except.error "size can only be specified in megabytes or larger" ∧
    parse_size "2" = Except.ok 2 ∧
    parse_size "0x10m" = Except.error "is not a valid size" := by
  exact ⟨rfl, rfl, rfl, rfl, rfl, rfl⟩

/-- **C9**.  Parsing the fully qualified PCI address `"0000:00:01.0"` and
formatting the result with `PCIAddress::to_string` yields the input again. -/
theorem C9_pci_address_roundtrip :
    (PCIAddress.from_str "0000:00:01.0").map PCIAddress.to_string = Except.ok "0000:00:01.0" := by
  rfl

/-- The collected error list is empty exactly when every phase result
succeeded. -/
theorem collectErrors_isEmpty_eq_all (rs : List (Except String Unit)) :
    (collectErrors rs).isEmpty = rs.all resultIsOk := by
  induction rs with
  | nil => rfl
  | cons r rest ih =>
    cases r with
    | ok u => simpa [collectErrors, resultIsOk] using ih
    | error e => simp [collectErrors, resultIsOk]

/-- **C8**.  `VirtualMachine::prepare` succeeds exactly when all of the
disk, VFIO, shared-memory and socket phase results succeed; on success a
`Loaded` machine moves to `Prepared` (any other state is kept), and on any
failure the state field is left unchanged and the result is the collected
multi-error holding every phase error. -/
theorem C8_prepare (st : VMState)
    (disk vfio shm socks : List (Except String Unit)) :
    ((disk ++ vfio ++ shm ++ socks).all resultIsOk = true →
      (VirtualMachine.prepare st disk vfio shm socks).2 = Except.ok () ∧
      (st = VMState.Loaded → (VirtualMachine.prepare st disk vfio shm socks).1 = VMState.Prepared) ∧
      (st ≠ VMState.Loaded → (VirtualMachine.prepare st disk vfio shm socks).1 = st)) ∧
    ((disk ++ vfio ++ shm ++ socks).all resultIsOk = false →
      (VirtualMachine.prepare st disk vfio shm socks).1 = st ∧
      (VirtualMachine.prepare st disk vfio shm socks).2 =
        Except.error (collectErrors (disk ++ vfio ++ shm ++ socks))) := by
  have hkey := collectErrors_isEmpty_eq_all (disk ++ vfio ++ shm ++ socks)
  constructor
  · intro hall
    rw [hall] at hkey
    unfold VirtualMachine.prepare bcollect
    rw [hkey]
    refine ⟨rfl, ?_, ?_⟩ <;> intro hst <;> simp [hst]
  · intro hall
    rw [hall] at hkey
    unfold VirtualMachine.prepare bcollect
    rw [hkey]
    exact ⟨rfl, rfl⟩

/-- **C8** witness: a `Loaded` machine whose four phases all succeed is
moved to `Prepared` with an `ok` result. -/
theorem C8_witness :
    (VirtualMachine.prepare VMState.Loaded [Except.ok ()] [] [] []).2 = Except.ok () ∧
    (VMState.Loaded = VMState.Loaded →
      (VirtualMachine.prepare VMState.Loaded [Except.ok ()] [] [] []).1 = VMState.Prepared) ∧
    (VMState.Loaded ≠ VMState.Loaded →
      (VirtualMachine.prepare VMState.Loaded [Except.ok ()] [] [] []).1 = VMState.Loaded) :=
  (C8_prepare VMState.Loaded [Except.ok ()] [] [] []).1 (by decide)

/-- **C5** (counterexample).  The claimed acceptance condition
`amount = sockets·dies·cores·threads` fails of the program because the
product is computed in wrapping `u64` arithmetic: the table
`amount = 0, cores = 1, threads = 1, dies = 2^32, sockets = 2^32` (every
value non-negative and below `2^63`, hence reachable through the config
layer) is accepted, although `0 ≠ 2^32 · 2^32 · 1 · 1`. -/
theorem C5_counterexample :
    CpuConfig.apply_table CpuConfig.default
      { amount := some 0, cores := some 1, threads := some 1,
        dies := some (2 ^ 32), sockets := some (2 ^ 32) } =
      Except.ok { amount := 0, cores := 1, threads := 1, dies := 2 ^ 32, sockets := 2 ^ 32 } ∧
    (0 : Nat) ≠ 2 ^ 32 * 2 ^ 32 * 1 * 1 := by
  exact ⟨rfl, by decide⟩

/-- **C5** (amended).  For every CPU table: (1) when `amount` is given
together with at least one of sockets/dies/cores/threads, `apply_table`
succeeds iff the amount equals the `u64` (mod `2^64`) product of the
(given-or-current) sub-fields; (2) when `amount` is omitted it is set to
that wrapped product; (3) when `amount` is given alone on the default
config, an even N splits as cores = N/2, threads = 2 and an odd N as
cores = N, threads = 1. -/
theorem C5_cpu_topology :
    (∀ (self : CpuConfig) (t : CpuTable) (a : Nat), t.amount = some a → t.subFieldsGiven = true →
      ((∃ c, CpuConfig.apply_table self t = Except.ok c) ↔
        a = (t.mergeInto self).sockets * (t.mergeInto self).dies * (t.mergeInto self).cores *
            (t.mergeInto self).threads % 2 ^ 64)) ∧
    (∀ (self : CpuConfig) (t : CpuTable), t.amount = none →
      CpuConfig.apply_table self t =
        Except.ok { t.mergeInto self with
          amount := (t.mergeInto self).sockets * (t.mergeInto self).dies *
                    (t.mergeInto self).cores * (t.mergeInto self).threads % 2 ^ 64 }) ∧
    (∀ (N : Nat) (t : CpuTable), t.amount = some N → t.cores = none → t.sockets = none →
      t.dies = none → t.threads = none →
      ((N % 2 = 0 → CpuConfig.default.apply_table t =
          Except.ok { amount := N, cores := N / 2, threads := 2, dies := 1, sockets := 1 }) ∧
       (N % 2 = 1 → CpuConfig.default.apply_table t =
          Except.ok { amount := N, cores := N, threads := 1, dies := 1, sockets := 1 }))) := by
  refine ⟨?_, ?_, ?_⟩
  · intro self t a ha hsub
    unfold CpuConfig.apply_table
    simp only [ha, Option.isNone_some, Bool.false_eq_true, if_false, hsub, if_true]
    have hamt : (t.mergeInto self).amount = a := by simp [CpuTable.mergeInto, ha]
    rw [hamt]
    by_cases h : a = (t.mergeInto self).sockets * (t.mergeInto self).dies *
        (t.mergeInto self).cores * (t.mergeInto self).threads % 2 ^ 64
    · simp [h]
    · norm_num at h
      simp [h]
  · intro self t ha
    unfold CpuConfig.apply_table
    simp [ha]
  · intro N t ha hc hs hd ht
    have hmerge : t.mergeInto CpuConfig.default =
        { amount := N, cores := 1, threads := 2, dies := 1, sockets := 1 } := by
      simp [CpuTable.mergeInto, ha, hc, hs, hd, ht, CpuConfig.default]
    have hsub : t.subFieldsGiven = false := by
      simp [CpuTable.subFieldsGiven, hc, hs, hd, ht]
    constructor
    · intro hpar
      unfold CpuConfig.apply_table
      rw [hmerge, hsub, ha]
      simp [hpar]
    · intro hpar
      unfold CpuConfig.apply_table
      rw [hmerge, hsub, ha]
      have : ¬ (N % 2 = 0) := by omega
      simp [this]

/-- **C5** witness: `amount = 6` with `cores = 3` on the default config is
accepted, since 1·1·3·2 = 6. -/
theorem C5_witness :
    ∃ c, CpuConfig.apply_table CpuConfig.default
      { amount := some 6, cores := some 3, threads := none, dies := none, sockets := none } =
      Except.ok c :=
  (C5_cpu_topology.1 CpuConfig.default
    { amount := some 6, cores := some 3, threads := none, dies := none, sockets := none }
    6 rfl rfl).mpr (by decide)

/-- `leastPow2From` reaches the requested minimum. -/
theorem leastPow2From_ge (minimum i : Nat) : minimum ≤ leastPow2From minimum i := by
  unfold leastPow2From
  split
  · exact leastPow2From_ge minimum (i + 1)
  · omega
termination_by minimum - 2 ^ i
decreasing_by
  have h1 : 2 ^ i < 2 ^ (i + 1) := Nat.pow_lt_pow_succ (by norm_num)
  omega

/-- `leastPow2From` is a power of two. -/
theorem leastPow2From_pow (minimum i : Nat) : ∃ k, leastPow2From minimum i = 2 ^ k := by
  unfold leastPow2From
  split
  · exact leastPow2From_pow minimum (i + 1)
  · exact ⟨i, rfl⟩
termination_by minimum - 2 ^ i
decreasing_by
  have h1 : 2 ^ i < 2 ^ (i + 1) := Nat.pow_lt_pow_succ (by norm_num)
  omega

/-- Minimality: `leastPow2From` is at most any power `2^m` (with exponent at
least the starting exponent) that already reaches the minimum. -/
theorem leastPow2From_le (minimum i : Nat) :
    ∀ m, i ≤ m → minimum ≤ 2 ^ m → leastPow2From minimum i ≤ 2 ^ m := by
  intro m him hm
  unfold leastPow2From
  split
  · rename_i h
    have hlt : i < m := by
      by_contra hc
      push_neg at hc
      have := Nat.pow_le_pow_right (show 0 < 2 by norm_num) hc
      omega
    exact leastPow2From_le minimum (i + 1) m (by omega) hm
  · exact Nat.pow_le_pow_right (by norm_num) him
termination_by minimum - 2 ^ i
decreasing_by
  have h1 : 2 ^ i < 2 ^ (i + 1) := Nat.pow_lt_pow_succ (by norm_num)
  omega

/-- For a minimum at most `2^63` and start exponent at most 63, the wrapped
`u64` loop terminates within the given fuel and returns the first adequate
power of two. -/
theorem buffer_size_loop_u64_eq (fuel : Nat) (minimum : Nat) (hmin : minimum ≤ 2 ^ 63) :
    ∀ i, i ≤ 63 → 64 ≤ fuel + i →
      buffer_size_loop_u64 fuel minimum i = some (leastPow2From minimum i) := by
  induction fuel with
  | zero => intro i hi hfuel; omega
  | succ fuel ih =>
    intro i hi hfuel
    unfold buffer_size_loop_u64
    have hpow : 2 ^ i % 2 ^ 64 = 2 ^ i :=
      Nat.mod_eq_of_lt (Nat.pow_lt_pow_right (by norm_num) (by omega))
    rw [hpow]
    by_cases h : 2 ^ i < minimum
    · rw [if_pos h]
      have hi2 : i < 63 := by
        by_contra hc
        push_neg at hc
        have : (2:Nat) ^ 63 ≤ 2 ^ i := Nat.pow_le_pow_right (by norm_num) hc
        omega
      rw [ih (i + 1) (by omega) (by omega)]
      nth_rewrite 2 [leastPow2From.eq_def]
      rw [if_pos h]
    · rw [if_neg h]
      rw [leastPow2From.eq_def, if_neg h]

/-- Once the minimum exceeds `2^63`, every `2^i % 2^64` stays below it, so
the wrapped loop never terminates (`none` for every amount of fuel). -/
theorem buffer_size_loop_u64_none (fuel : Nat) (minimum : Nat) (hmin : 2 ^ 63 < minimum) :
    ∀ i, buffer_size_loop_u64 fuel minimum i = none := by
  induction fuel with
  | zero => intro i; rfl
  | succ fuel ih =>
    intro i
    unfold buffer_size_loop_u64
    have hlt : 2 ^ i % 2 ^ 64 < minimum := by
      by_cases h : i ≤ 63
      · have h1 : (2:Nat) ^ i ≤ 2 ^ 63 := Nat.pow_le_pow_right (by norm_num) h
        have h2 : 2 ^ i % 2 ^ 64 ≤ 2 ^ i := Nat.mod_le _ _
        omega
      · push_neg at h
        obtain ⟨c, hc⟩ := pow_dvd_pow 2 (show 64 ≤ i by omega)
        rw [hc, Nat.mul_mod_right]
        omega
    rw [if_pos hlt]
    exact ih (i + 1)

/-- **C7** (counterexample).  The derivation runs in wrapping `u64`
arithmetic: at width = height = `2^32` (reachable, `into_int()? as u64` is
unchecked) and bit depth 8, `width * height` wraps to 0 and the derived
buffer is just the 2 MiB slack — far below the claimed lower bound
`width · height · ceil(bit_depth / 2) + 2 MiB`. -/
theorem C7_counterexample :
    calc_buffer_size_from_screen (2 ^ 32) (2 ^ 32) 8 = some 2097152 ∧
    2097152 < 2 ^ 32 * 2 ^ 32 * ((8 + 1) / 2) + 2 * 1024 * 1024 := by
  exact ⟨rfl, by decide⟩

/-- **C7** (amended).  Under the source's `u64` (wrapping) arithmetic, with
the bit depth in the range where the `f64` ceiling is exact: writing `M`
for the wrapped minimum `((width·height·ceil(bit_depth·4/8)) mod 2^64 · 2
mod 2^64 + 2 MiB) mod 2^64`, (1) when `1 < M ≤ 2^63` the derived buffer
size is a power of two, at least `M`, and minimal among powers `2^m` with
`m ≥ 2` reaching `M`; (2) when `M ≤ 1` the buffer is 1; (3) when
`M > 2^63` the source loop never terminates. -/
theorem C7_buffer_size (width height bit_depth : Nat)
    (_h53 : bit_depth * 4 % 2 ^ 64 ≤ 2 ^ 53) :
    ((1 < wrapped_minimum width height bit_depth ∧
        wrapped_minimum width height bit_depth ≤ 2 ^ 63) →
      ∃ B, calc_buffer_size_from_screen width height bit_depth = some B ∧
        (∃ k, B = 2 ^ k) ∧ wrapped_minimum width height bit_depth ≤ B ∧
        (∀ m, 2 ≤ m → wrapped_minimum width height bit_depth ≤ 2 ^ m → B ≤ 2 ^ m)) ∧
    (wrapped_minimum width height bit_depth ≤ 1 →
      calc_buffer_size_from_screen width height bit_depth = some 1) ∧
    (2 ^ 63 < wrapped_minimum width height bit_depth →
      calc_buffer_size_from_screen width height bit_depth = none) := by
  refine ⟨?_, ?_, ?_⟩
  · rintro ⟨h1, h2⟩
    refine ⟨leastPow2From (wrapped_minimum width height bit_depth) 2, ?_, ?_, ?_, ?_⟩
    · unfold calc_buffer_size_from_screen
      rw [if_pos h1]
      exact buffer_size_loop_u64_eq 64 _ h2 2 (by omega) (by omega)
    · exact leastPow2From_pow _ 2
    · exact leastPow2From_ge _ 2
    · intro m hm hmin
      exact leastPow2From_le _ 2 m hm hmin
  · intro h1
    unfold calc_buffer_size_from_screen
    rw [if_neg (by omega)]
  · intro h1
    unfold calc_buffer_size_from_screen
    rw [if_pos (by omega)]
    exact buffer_size_loop_u64_none 64 _ h1 2

/-- **C7** witness at the default screen geometry 1920x1080 with bit depth
8, where nothing wraps. -/
theorem C7_witness :
    ∃ B, calc_buffer_size_from_screen 1920 1080 8 = some B ∧
      (∃ k, B = 2 ^ k) ∧ wrapped_minimum 1920 1080 8 ≤ B ∧
      (∀ m, 2 ≤ m → wrapped_minimum 1920 1080 8 ≤ 2 ^ m → B ≤ 2 ^ m) :=
  (C7_buffer_size 1920 1080 8 (by decide)).1 ⟨by decide, by decide⟩

/-- **C10**.  In alternate (`{:#}`) formatting — the form used to build
every `/sys/bus/pci/devices/<addr>/...` path during VFIO preparation and
PCI id lookup — the four-hex-digit domain prefix is included exactly when
the domain equals zero, and an address with a non-zero domain is formatted
as `bus:slot.func` with its domain omitted. -/
theorem C10_alternate_format (a : PCIAddress) :
    (a.domain = 0 →
      a.displayAlt = "0000:" ++ a.busSlotFunc ∧
      pci_driver_path a = "/sys/bus/pci/devices/0000:" ++ a.busSlotFunc ++ "/driver") ∧
    (a.domain ≠ 0 →
      a.displayAlt = a.busSlotFunc ∧
      pci_driver_path a = "/sys/bus/pci/devices/" ++ a.busSlotFunc ++ "/driver") := by
  constructor
  · intro h
    have h1 : a.displayAlt = "0000:" ++ a.busSlotFunc := by
      unfold PCIAddress.displayAlt
      rw [h]
      rfl
    refine ⟨h1, ?_⟩
    unfold pci_driver_path
    rw [h1]
    rfl
  · intro h
    have h1 : a.displayAlt = a.busSlotFunc := by
      unfold PCIAddress.displayAlt
      rw [if_neg h]
      exact String.empty_append _
    refine ⟨h1, ?_⟩
    unfold pci_driver_path
    rw [h1]

/-- **C10** witness at the zero-domain address 0000:03:00.1. -/
theorem C10_witness :
    PCIAddress.displayAlt { domain := 0, bus := 3, slot := 0, func := 1 } =
      "0000:" ++ PCIAddress.busSlotFunc { domain := 0, bus := 3, slot := 0, func := 1 } ∧
    pci_driver_path { domain := 0, bus := 3, slot := 0, func := 1 } =
      "/sys/bus/pci/devices/0000:" ++
        PCIAddress.busSlotFunc { domain := 0, bus := 3, slot := 0, func := 1 } ++ "/driver" :=
  (C10_alternate_format { domain := 0, bus := 3, slot := 0, func := 1 }).1 rfl

/-- **C6**.  For a VFIO device whose current driver is not `vfio-pci`:
with `execute_fixes = false` its preparation fails with an error naming the
current driver and performs no sysfs write; with a blacklisted driver and
`force = false` it fails with the manual-unbind instruction and performs no
sysfs write. -/
theorem C6_vfio_refusal (execute_fixes force : Bool) (address : String)
    (link : Option String) (rebind : Bool)
    (hdrv : driver_from_link link ≠ "vfio-pci") :
    (execute_fixes = false →
      (prepare_vfio_device execute_fixes force address link rebind).1 = [] ∧
      ∃ pre post, (prepare_vfio_device execute_fixes force address link rebind).2 =
        Except.error (pre ++ driver_from_link link ++ post)) ∧
    (driver_from_link link ∈ AUTO_UNBIND_BLACKLIST → force = false →
      (prepare_vfio_device execute_fixes force address link rebind).1 = [] ∧
      ∃ pre post, (prepare_vfio_device execute_fixes force address link rebind).2 =
        Except.error
          (pre ++ "please make sure this device is unbound before running vore" ++ post)) := by
  constructor
  · intro hef
    subst hef
    simp only [prepare_vfio_device]
    rw [if_pos ⟨hdrv, Or.inl trivial⟩]
    by_cases hne : driver_from_link link = ""
    · rw [if_neg (fun hcon => hcon.1 hne), if_neg (fun hcon => hcon hne)]
      refine ⟨rfl, "", "PCI device at " ++ address ++
        " currently has no driver, but to be used with VFIO needs to be set to vfio-pci", ?_⟩
      rw [hne]
      rfl
    · by_cases hbl : (AUTO_UNBIND_BLACKLIST.contains (driver_from_link link) && !force) = true
      · rw [if_pos ⟨hne, hbl⟩]
        refine ⟨rfl, "PCI device " ++ address ++ " current driver is ",
          ", but to be used with VFIO needs to be set to vfio-pci, this driver (" ++
            driver_from_link link ++
            ") has been blacklisted from automatic rebinding because it cannot be cleanly unbound, please make sure this device is unbound before running vore", ?_⟩
        simp only [String.append_assoc]
        try rfl
      · rw [if_neg (fun hcon => hbl hcon.2), if_pos hne]
        exact ⟨rfl, "PCI device " ++ address ++ " current driver is ",
          ", but to be used with VFIO needs to be set to vfio-pci", rfl⟩
  · intro hmem hforce
    subst hforce
    have hd2 : driver_from_link link = "nvidia" ∨ driver_from_link link = "amdgpu" := by
      simpa [AUTO_UNBIND_BLACKLIST] using hmem
    have hblc : (AUTO_UNBIND_BLACKLIST.contains (driver_from_link link) && !false) = true := by
      rcases hd2 with h | h <;> rw [h] <;> decide
    have hne : driver_from_link link ≠ "" := by
      rcases hd2 with h | h <;> rw [h] <;> decide
    simp only [prepare_vfio_device]
    rw [if_pos ⟨hdrv, Or.inr hblc⟩, if_pos ⟨hne, hblc⟩]
    refine ⟨rfl, "PCI device " ++ address ++ " current driver is " ++ driver_from_link link ++
      ", but to be used with VFIO needs to be set to vfio-pci, this driver (" ++
      driver_from_link link ++
      ") has been blacklisted from automatic rebinding because it cannot be cleanly unbound, ",
      "", ?_⟩
    rw [String.append_empty]
    simp only [String.append_assoc]
    try rfl

/-- **C6** witness: an `nvidia`-bound device with `execute_fixes = true`,
`force = false` is refused with the manual-unbind message and no writes. -/
theorem C6_witness :
    ((prepare_vfio_device true false "0000:01:00.0"
        (some "../../../bus/pci/drivers/nvidia") true).1 = [] ∧
      ∃ pre post, (prepare_vfio_device true false "0000:01:00.0"
          (some "../../../bus/pci/drivers/nvidia") true).2 =
        Except.error
          (pre ++ "please make sure this device is unbound before running vore" ++ post)) :=
  (C6_vfio_refusal true false "0000:01:00.0" (some "../../../bus/pci/drivers/nvidia") true
    (by decide)).2 (by decide) rfl
